import Mathlib

/-!
Shallow embedding of the execution and response-normalization engine of the
aidk repository (src/aidk/models/_response_processor.py,
src/aidk/models/_prompt_executor.py, src/aidk/models/multi_model.py), with
theorems settling the frozen claims about it.

Python machine values are modelled as follows: Python ints as `Int`, Python
`decimal.Decimal` values as exact rationals `ℚ` (Decimal arithmetic is exact
decimal arithmetic), Python `None`-able fields as `Option`, raising code as
`Except PyErr`.  IEEE-754 doubles are modelled by their exact rational value.
-/

namespace Aidk

/-- Python exceptions that the modelled code can raise. -/
inductive PyErr where
  | typeError (msg : String)
  | transportError (msg : String)
  deriving DecidableEq, Repr

/-! ## Data model (src/aidk/models/_response_processor.py, dataclasses) -/

/-- Dataclass `Model` (model identity): provider and model name. -/
structure Model where
  provider : String
  name : String
  deriving DecidableEq, Repr

/-- Dataclass `ModelUsage`: token counts and cost.  `cost` is a Decimal in the
source and may be `None` on the streaming tail, hence `Option ℚ`. -/
structure ModelUsage where
  completion_tokens : Int
  prompt_tokens : Int
  total_tokens : Int
  cost : Option ℚ
  deriving DecidableEq, Repr

/-- Dataclass `ModelResponse`: terminal value of a non-streaming call. -/
structure ModelResponse where
  prompt : String
  response : String
  model : Model
  usage : ModelUsage
  deriving DecidableEq, Repr

/-- Dataclass `ModelStreamHead`: carries only the model identity. -/
structure ModelStreamHead where
  model : Model
  deriving DecidableEq, Repr

/-- Dataclass `ModelStreamChunk`: carries one text delta. -/
structure ModelStreamChunk where
  delta : String
  deriving DecidableEq, Repr

/-- Dataclass `ModelStreamTail`: echoed prompt, accumulated response, model
identity and aggregate usage. -/
structure ModelStreamTail where
  prompt : String
  response : String
  model : Model
  usage : ModelUsage
  deriving DecidableEq, Repr

/-! ## Raw transport output (litellm response objects, at the boundary) -/

/-- The `usage` record of a raw transport response: the token counts exactly
as the transport reports them (possibly mutually inconsistent). -/
structure TransportUsage where
  completion_tokens : Int
  prompt_tokens : Int
  total_tokens : Int
  deriving DecidableEq, Repr

/-- A raw non-streaming transport response: `choices[0].message.content`,
`usage`, and the hidden cost field `_hidden_params["response_cost"]`.
The cost arrives as a Python float (or `None`); it is modelled by the exact
rational value of that float. -/
structure TransportResponse where
  content : String
  usage : TransportUsage
  response_cost : Option ℚ
  deriving DecidableEq, Repr

/-- A raw streaming content chunk: `choices[0].delta.content`. -/
structure RawChunk where
  delta : String
  deriving DecidableEq, Repr

/-- The terminal transport chunk of a stream: aggregate `usage` and the hidden
cost field (nullable). -/
structure RawTail where
  usage : TransportUsage
  response_cost : Option ℚ
  deriving DecidableEq, Repr

/-! ## Decimal arithmetic (Python `decimal` module semantics) -/

/-- Round a rational to the nearest integer, ties to even: the default
`ROUND_HALF_EVEN` context rounding that Python `round(Decimal, n)` uses. -/
def roundHalfEven (q : ℚ) : ℤ :=
  let f := ⌊q⌋
  let r := q - (f : ℚ)
  if r < 1/2 then f
  else if 1/2 < r then f + 1
  else if f % 2 = 0 then f else f + 1

/-- Python `round(d, 8)` on a Decimal `d`: quantize to 8 fractional decimal
digits with `ROUND_HALF_EVEN`. -/
def pyRound8 (q : ℚ) : ℚ :=
  (roundHalfEven (q * 10 ^ 8) : ℚ) / 10 ^ 8

/-- Python `Decimal(x)` applied to the hidden cost field: on a float the
conversion is exact (Decimal takes the float's exact binary value, already
reflected in the `ℚ` argument); on `None` it raises a `TypeError`. -/
def pyDecimal : Option ℚ → Except PyErr ℚ
  | none => .error (.typeError "conversion from NoneType to Decimal is not supported")
  | some q => .ok q

/-! ## Executor context

The attributes of `self` that the two mixins read: `provider`, `model`,
`url`, `version`, `_max_tokens`, `_tools`, `_rag`.  (`_rag` is passed
separately to the augmentation step, which is the only place it is read.) -/

/-- A tool value held in `self._tools`: a plain Python function
(`types.FunctionType`), an MCP-protocol tool (`mcp.types.Tool`), or any other
runtime value. -/
inductive ToolValue where
  | func (f : String)
  | mcp (t : String)
  | other (o : String)
  deriving DecidableEq, Repr

/-- A normalized transport tool descriptor, tagged by which adapter produced
it. -/
inductive ToolDescriptor where
  | funcDesc (v : ToolValue)
  | mcpDesc (t : String)
  deriving DecidableEq, Repr

/-- Modelled from the spec: `ToolParser.parse` (src/aidk/tools/_tool_parser.py
is not under src/) normalizes a plain-callable tool value into the
transport's tool-schema entry; modelled as tagging the value. -/
def toolParserParse (v : ToolValue) : ToolDescriptor :=
  .funcDesc v

/-- Modelled from the spec: `McpToolParser.parse`
(src/aidk/mcp/_mcp_tool_parser.py is not under src/) normalizes an
MCP-protocol tool into the transport's tool-schema entry; modelled as tagging
the value. -/
def mcpToolParserParse (t : String) : ToolDescriptor :=
  .mcpDesc t

/-- The executor attributes read by the prompt-execution mixin.  `toolsAttr`
is `none` when `self` has no `_tools` attribute and `some ts` when
`self._tools` is the list `ts`. -/
structure Executor where
  provider : String
  model : String
  url : Option String := none
  version : Int := 1
  max_tokens : Option Int := none
  toolsAttr : Option (List ToolValue) := none
  deriving DecidableEq, Repr

/-! ## Response processor (src/aidk/models/_response_processor.py, mixin) -/

/-- `ResponseProcessorMixin._process_response`: build a `ModelResponse` from a
raw transport response.  The usage token counts are copied verbatim; the cost
is `round(Decimal(response._hidden_params["response_cost"]), 8)` with no
`None` guard, so a `None` cost raises. -/
def processResponse (self : Executor) (prompt : String)
    (response : TransportResponse) : Except PyErr ModelResponse :=
  match pyDecimal response.response_cost with
  | .error e => .error e
  | .ok c => .ok {
      prompt := prompt
      response := response.content
      model := { provider := self.provider, name := self.model }
      usage := {
        completion_tokens := response.usage.completion_tokens
        prompt_tokens := response.usage.prompt_tokens
        total_tokens := response.usage.total_tokens
        cost := some (pyRound8 c) } }

/-- `ResponseProcessorMixin._process_stream_head`. -/
def processStreamHead (self : Executor) : ModelStreamHead :=
  { model := { provider := self.provider, name := self.model } }

/-- `ResponseProcessorMixin._process_stream_chunk`. -/
def processStreamChunk (chunk : RawChunk) : ModelStreamChunk :=
  { delta := chunk.delta }

/-- `ResponseProcessorMixin._process_stream_tail`: usage token counts copied
verbatim from the terminal chunk; cost rounded only when the terminal chunk
reports a non-null cost, else `None`. -/
def processStreamTail (self : Executor) (chunk : RawTail)
    (prompt response : String) : ModelStreamTail :=
  { prompt := prompt
    response := response
    model := { provider := self.provider, name := self.model }
    usage := {
      completion_tokens := chunk.usage.completion_tokens
      prompt_tokens := chunk.usage.prompt_tokens
      total_tokens := chunk.usage.total_tokens
      cost := chunk.response_cost.map pyRound8 } }

/-- The exact rational value of the IEEE-754 binary64 float `0.123456785`:
the mantissa 8895998894757751 lies in `[2^52, 2^53)` and the value is the
representable number nearest to the decimal literal (strictly below it). -/
def respCostFloatVal : ℚ := 8895998894757751 / 2 ^ 56

/-! ## Observability side effect (src/aidk/models/_prompt_executor.py) -/

/-- The litellm module attributes `success_callback` / `failure_callback`
(the transport's success- and failure-notification channels). -/
structure LitellmCallbacks where
  success_callback : List String
  failure_callback : List String
  deriving DecidableEq, Repr

/-- The configuration read by the executor: `Conf()["observability"]` and the
RAG template text `Conf()["default_prompt"]["rag"]`. -/
structure Conf where
  observability : List String
  ragTemplate : String
  deriving DecidableEq, Repr

/-- `PromptExecutorMixin._setup_observability`: reads the observability list
from configuration; when it is non-empty, executes
`success_callback = observability` and `failure_callback = observability`.
Because those names were imported into the module by value, the assignments
bind function-local variables, so the litellm module attributes are returned
unchanged in every case. -/
def setupObservability (conf : Conf) (litellm : LitellmCallbacks) :
    LitellmCallbacks :=
  let observability := conf.observability
  if 0 < observability.length then
    let success_callback := observability
    let failure_callback := observability
    litellm
  else
    litellm

/-! ## RAG augmentation (shared block of `_execute`, `_execute_async`,
`_execute_stream`) -/

/-- The value returned by `self._rag.query(prompt)`: a dict with a
`"documents"` key holding a list of document groups. -/
structure RagResult where
  documents : List (List String)
  deriving DecidableEq, Repr

/-- The RAG block: when a retrieval capability is attached, query it; when the
returned group list is non-empty, flatten all groups in order, join with
newline, and append the configured template text followed by the joined
documents to the prompt; otherwise leave the prompt unchanged.  Skipped
entirely when no retrieval capability is attached. -/
def ragAugment (rag : Option (String → RagResult)) (conf : Conf)
    (prompt : String) : String :=
  match rag with
  | none => prompt
  | some query =>
    let response := query prompt
    if 0 < response.documents.length then
      let documents := response.documents.flatten
      let documents := String.intercalate "\n" documents
      prompt ++ (conf.ragTemplate ++ documents)
    else
      prompt

/-! ## Tool resolution -/

/-- The per-tool classification in `_get_tools`: a plain function is parsed by
`ToolParser`, an MCP tool by `McpToolParser`, any other value falls through
the `if`/`elif` with no `else` and is skipped. -/
def parseStep : ToolValue → Option ToolDescriptor
  | .func f => some (toolParserParse (.func f))
  | .mcp t => some (mcpToolParserParse t)
  | .other _ => none

/-- The `for tool in self._tools` loop of `_get_tools`, with its list
accumulator. -/
def toolLoop : List ToolValue → List ToolDescriptor → List ToolDescriptor
  | [], acc => acc
  | .func f :: rest, acc => toolLoop rest (acc ++ [toolParserParse (.func f)])
  | .mcp t :: rest, acc => toolLoop rest (acc ++ [mcpToolParserParse t])
  | .other _ :: rest, acc => toolLoop rest acc

/-- `PromptExecutorMixin._get_tools`: `None` when `self` has no `_tools`
attribute or the attribute is empty; otherwise the loop's accumulated
descriptor list. -/
def getTools (toolsAttr : Option (List ToolValue)) :
    Option (List ToolDescriptor) :=
  match toolsAttr with
  | some ts => if 0 < ts.length then some (toolLoop ts []) else none
  | none => none

/-- The `for tool in self._tools` loop inlined in `_completion_async`: every
tool is passed to `ToolParser.parse`, with no variant classification and no
skipping. -/
def toolLoopAsync : List ToolValue → List ToolDescriptor → List ToolDescriptor
  | [], acc => acc
  | t :: rest, acc => toolLoopAsync rest (acc ++ [toolParserParse t])

/-- The tool resolution of `_completion_async` (guarded only by
`hasattr(self, "_tools")`, so an empty attribute yields an empty list, not
`None`). -/
def getToolsAsync (toolsAttr : Option (List ToolValue)) :
    Option (List ToolDescriptor) :=
  match toolsAttr with
  | some ts => some (toolLoopAsync ts [])
  | none => none

/-! ## Request construction -/

/-- One role/content message. -/
structure Message where
  role : String
  content : String
  deriving DecidableEq, Repr

/-- The `response_format` value handed to the transport: a pydantic wrapper
with a single `response` field annotated `str`, such a wrapper annotated with
the requested type, or the raw requested type passed through unwrapped (the
streaming path). -/
inductive RespFormat where
  | wrapText
  | wrapTyped (t : String)
  | rawType (t : String)
  deriving DecidableEq, Repr

/-- The argument record handed to the transport call
(`litellm.completion` / `litellm.acompletion`). -/
structure CompletionArgs where
  model : String
  messages : List Message
  response_format : Option RespFormat
  base_url : Option String
  tools : Option (List ToolDescriptor)
  max_tokens : Option Int
  metadata : Option (List (String × String))
  stream : Bool := false
  deriving DecidableEq, Repr

/-- The `Prompt` object surface read by the executor: its serialized text
(`str(prompt)`) and its `response_type` attribute. -/
structure PromptVal where
  text : String
  response_type : Option String
  deriving DecidableEq, Repr

/-- Modelled from the spec: `Prompt.as_dict` (src/aidk/prompts/prompt.py is
not under src/) serializes a structured prompt to its role/content form, a
single user-role message carrying the prompt text. -/
def promptAsDict (p : PromptVal) : Message :=
  { role := "user", content := p.text }

/-- The `prompt` argument of `_completion`: a `Prompt` object or a pre-built
message list. -/
inductive PromptArg where
  | promptObj (p : PromptVal)
  | msgs (ms : List Message)
  deriving DecidableEq, Repr

/-- The `prompt` argument of `_completion_async` / `_completion_stream`: a
string or a pre-built message list. -/
inductive StrOrMsgs where
  | str (s : String)
  | msgs (ms : List Message)
  deriving DecidableEq, Repr

/-- The model-identifier / base-url resolution shared by the three completion
paths: identifier `provider ++ "/" ++ model`; when a self-hosted url is set,
the identifier gains the `hosted_vllm/` tag and the base url becomes
`url ++ "/v" ++ version`. -/
def resolveModelUrl (self : Executor) : String × Option String :=
  let model := self.provider ++ "/" ++ self.model
  match self.url with
  | none => (model, none)
  | some u => ("hosted_vllm/" ++ model, some (u ++ "/v" ++ toString self.version))

/-- `PromptExecutorMixin._completion`: the blocking transport request.
Metadata is normalized (`metadata or` an empty dict); a `Prompt` argument
contributes `[prompt.as_dict()]` and its response type; the response format
wraps free text under a single `str` field when no type is requested,
otherwise wraps the requested type; tools come from `_get_tools`. -/
def completionArgs (self : Executor) (prompt : PromptArg)
    (metadata : Option (List (String × String))) : CompletionArgs :=
  let metadata := some (metadata.getD [])
  let (messages, response_type) :=
    match prompt with
    | .promptObj p => ([promptAsDict p], p.response_type)
    | .msgs ms => (ms, (none : Option String))
  let response_format :=
    match response_type with
    | none => RespFormat.wrapText
    | some t => RespFormat.wrapTyped t
  let (model, url) := resolveModelUrl self
  let tools := getTools self.toolsAttr
  { model := model, messages := messages,
    response_format := some response_format, base_url := url, tools := tools,
    max_tokens := self.max_tokens, metadata := metadata }

/-- `PromptExecutorMixin._completion_async`: the non-blocking transport
request.  Kept faithful to the source where it differs from `_completion`:
a missing response type sends `response_format=None`; the inline tool
resolution is used; metadata is passed through unnormalized. -/
def completionAsyncArgs (self : Executor) (prompt : StrOrMsgs)
    (response_type : Option String)
    (metadata : Option (List (String × String))) : CompletionArgs :=
  let response_format :=
    match response_type with
    | none => (none : Option RespFormat)
    | some t => some (RespFormat.wrapTyped t)
  let (model, url) := resolveModelUrl self
  let tools := getToolsAsync self.toolsAttr
  let messages :=
    match prompt with
    | .str s => [{ role := "user", content := s }]
    | .msgs ms => ms
  { model := model, messages := messages,
    response_format := response_format, base_url := url, tools := tools,
    max_tokens := self.max_tokens, metadata := metadata }

/-- `PromptExecutorMixin._completion_stream`: the streaming transport request
(`stream=True`); the raw `response_type` value is passed through as
`response_format` unwrapped; tools come from `_get_tools`. -/
def completionStreamArgs (self : Executor) (prompt : StrOrMsgs)
    (response_type : Option String)
    (metadata : Option (List (String × String))) : CompletionArgs :=
  let (model, url) := resolveModelUrl self
  let tools := getTools self.toolsAttr
  let messages :=
    match prompt with
    | .str s => [{ role := "user", content := s }]
    | .msgs ms => ms
  { model := model, messages := messages,
    response_format := response_type.map RespFormat.rawType, base_url := url,
    tools := tools, max_tokens := self.max_tokens, metadata := metadata,
    stream := true }

/-! ## Streaming driver -/

/-- One element of the processed streaming sequence. -/
inductive StreamEvent where
  | head (h : ModelStreamHead)
  | chunk (c : ModelStreamChunk)
  | tail (t : ModelStreamTail)
  deriving DecidableEq, Repr

/-- Modelled from the spec: the streaming driver (`Model.ask_stream` in
src/aidk/models/model.py, which is not under src/).  Per the spec it yields a
single head before any content, one processed chunk per transport content
delta, and a single tail built from the terminal transport chunk together
with the echoed prompt and the accumulated response text; a transport failure
before any output yields nothing and re-raises.  Built over the src
definitions `completionStreamArgs` and the `_process_stream_*` converters. -/
def askStream (self : Executor) (prompt : String)
    (transport : CompletionArgs → Except PyErr (List RawChunk × RawTail)) :
    Except PyErr (List StreamEvent) :=
  match transport (completionStreamArgs self (.str prompt) none none) with
  | .error e => .error e
  | .ok (chunks, last) =>
    .ok ([.head (processStreamHead self)]
      ++ chunks.map (fun c => .chunk (processStreamChunk c))
      ++ [.tail (processStreamTail self last prompt
            (String.join (chunks.map RawChunk.delta)))])

/-! ## Multi-model orchestrator (src/aidk/models/multi_model.py) -/

/-- `MultiModel` instance state: `ctx` is the executor attribute state the
instance inherits from `BaseModel.__init__` (src/aidk/models/_base_model.py
is not under src/; `_task` reads `self.provider` / `self.model` from it,
whatever they are), and `models` is `self._models`, one identity per
configuration entry, no deduplication. -/
structure MultiModel where
  ctx : Executor
  models : List Model
  deriving Repr

/-- `MultiModel.__init__`: builds one model identity per entry of the
configuration list, in order. -/
def multiModelInit (ctx : Executor) (models : List (String × String)) :
    MultiModel :=
  { ctx := ctx
    models := models.map fun m => { provider := m.1, name := m.2 } }

/-- The transport request every task of one fan-out call sends:
`_execute_async` (no RAG attached) forwards the prompt string to
`_completion_async` with `metadata=None`, reading `self.provider` /
`self.model` from the orchestrator's own context. -/
def taskRequest (mm : MultiModel) (prompt : String) : CompletionArgs :=
  completionAsyncArgs mm.ctx (.str prompt) none none

/-- `MultiModel._task`: awaits `self._execute_async(prompt, metadata=None)`
and processes the result with `self._process_response`.  The body never reads
its `model` parameter: request construction and response tagging use the
orchestrator's own `self`.  `acompResult` is the outcome of this task's
transport await. -/
def taskMM (mm : MultiModel) (prompt : String)
    (acompResult : Except PyErr TransportResponse) (model : Model) :
    Except PyErr ModelResponse :=
  match acompResult with
  | .error e => .error e
  | .ok r => processResponse mm.ctx prompt r

/-- The exception of the first outcome, in completion order, that raised. -/
def firstErrorIn {α : Type} (outcomes : List (Except PyErr α)) :
    List Nat → Option PyErr
  | [] => none
  | i :: rest =>
    match outcomes[i]? with
    | some (.error e) => some e
    | _ => firstErrorIn outcomes rest

/-- `asyncio.gather(*tasks)`: suspends until all tasks complete; when some
task raised, the gather call raises the exception of the task that failed
earliest in completion-time order `σ` (a permutation of the task indices);
otherwise it returns the task results in task order, independent of `σ`. -/
def gather {α : Type} (outcomes : List (Except PyErr α)) (σ : List Nat) :
    Except PyErr (List α) :=
  match firstErrorIn outcomes σ with
  | some e => .error e
  | none => .ok (outcomes.filterMap fun o =>
      match o with
      | .ok a => some a
      | .error _ => none)

/-- The per-model task outcomes of `_ask_async`: one task per configured
model, in configuration order; `acomp i` is the transport outcome observed by
the task at index `i`. -/
def fanTasks (mm : MultiModel) (prompt : String)
    (acomp : Nat → Except PyErr TransportResponse) :
    List (Except PyErr ModelResponse) :=
  ((List.range mm.models.length).zip mm.models).map fun im =>
    taskMM mm prompt (acomp im.1) im.2

/-- `MultiModel._ask_async` (and `MultiModel.ask`, which runs it to
completion): `asyncio.gather` over the per-model tasks, with completion order
`σ`. -/
def askAsyncMM (mm : MultiModel) (prompt : String)
    (acomp : Nat → Except PyErr TransportResponse) (σ : List Nat) :
    Except PyErr (List ModelResponse) :=
  gather (fanTasks mm prompt acomp) σ

/-- Whether an outcome is a normal (non-raising) return. -/
def exceptIsOk {α : Type} : Except PyErr α → Bool
  | .ok _ => true
  | .error _ => false

/-- Decidable equality of outcomes, so that the model can be evaluated on
concrete inputs. -/
instance exceptDecEq {α : Type} [DecidableEq α] :
    DecidableEq (Except PyErr α) := fun a b =>
  match a, b with
  | .error e, .error f =>
    if h : e = f then .isTrue (by rw [h]) else .isFalse fun h2 => h (Except.error.inj h2)
  | .error _, .ok _ => .isFalse fun h2 => Except.noConfusion h2
  | .ok _, .error _ => .isFalse fun h2 => Except.noConfusion h2
  | .ok x, .ok y =>
    if h : x = y then .isTrue (by rw [h]) else .isFalse fun h2 => h (Except.ok.inj h2)

/-! ## Helper lemmas -/

/-- `respCostFloatVal` is a faithful reading of the float literal
`0.123456785`: its scaled mantissa is in the binary64 range `[2^52, 2^53)`
and it is within half an ulp of the decimal value, on the low side. -/
theorem respCostFloatVal_nearest :
    (2 : ℚ) ^ 52 ≤ respCostFloatVal * 2 ^ 56 ∧
    respCostFloatVal * 2 ^ 56 < 2 ^ 53 ∧
    respCostFloatVal < 123456785 / 10 ^ 9 ∧
    (123456785 / 10 ^ 9 : ℚ) - respCostFloatVal < 1 / 2 ^ 57 := by
  refine ⟨by norm_num [respCostFloatVal], by norm_num [respCostFloatVal],
    by norm_num [respCostFloatVal], by norm_num [respCostFloatVal]⟩

/-- Rounding the float value of the reported cost to 8 decimal digits rounds
down: the fractional part `0.4999999…` of the scaled value is strictly below
one half. -/
theorem roundHalfEven_floatCost :
    roundHalfEven (respCostFloatVal * 10 ^ 8) = 12345678 := by
  have hf : ⌊(respCostFloatVal * 10 ^ 8 : ℚ)⌋ = 12345678 := by
    rw [Int.floor_eq_iff]
    constructor <;> norm_num [respCostFloatVal]
  simp only [roundHalfEven, hf]
  norm_num [respCostFloatVal]

/-- Rounding the exact decimal `0.123456785` to 8 decimal digits is an exact
tie, and half-even resolves it to the even digit 8. -/
theorem roundHalfEven_exactCost :
    roundHalfEven ((123456785 / 10 ^ 9 : ℚ) * 10 ^ 8) = 12345678 := by
  have hf : ⌊((123456785 / 10 ^ 9 : ℚ) * 10 ^ 8)⌋ = 12345678 := by
    rw [Int.floor_eq_iff]
    constructor <;> norm_num
  simp only [roundHalfEven, hf]
  norm_num

/-- The `_get_tools` loop accumulates, in input order, one descriptor per
recognized tool and skips the rest. -/
theorem toolLoop_eq (ts : List ToolValue) (acc : List ToolDescriptor) :
    toolLoop ts acc = acc ++ ts.filterMap parseStep := by
  induction ts generalizing acc with
  | nil => simp [toolLoop]
  | cons t rest ih =>
    cases t with
    | func f => simp [toolLoop, ih, parseStep]
    | mcp m => simp [toolLoop, ih, parseStep]
    | other o => simp [toolLoop, ih, parseStep]

/-- The `_completion_async` tool loop maps every tool through
`ToolParser.parse`, in input order, skipping nothing. -/
theorem toolLoopAsync_eq (ts : List ToolValue) (acc : List ToolDescriptor) :
    toolLoopAsync ts acc = acc ++ ts.map toolParserParse := by
  induction ts generalizing acc with
  | nil => simp [toolLoopAsync]
  | cons t rest ih => simp [toolLoopAsync, ih]

/-- There is one fan-out task per configured model. -/
theorem fanTasks_length (mm : MultiModel) (prompt : String)
    (acomp : Nat → Except PyErr TransportResponse) :
    (fanTasks mm prompt acomp).length = mm.models.length := by
  simp [fanTasks]

/-- If some task whose index occurs in the completion order raised, the
gather scan finds an exception. -/
theorem firstErrorIn_isSome_of_mem {α : Type} (outcomes : List (Except PyErr α))
    (σ : List Nat) (i : Nat) (e : PyErr) (hmem : i ∈ σ)
    (hi : outcomes[i]? = some (.error e)) :
    ∃ e2, firstErrorIn outcomes σ = some e2 := by
  induction σ with
  | nil => exact absurd hmem (List.not_mem_nil i)
  | cons j rest ih =>
    rcases List.mem_cons.mp hmem with rfl | hr
    · exact ⟨e, by simp [firstErrorIn, hi]⟩
    · cases hj : outcomes[j]? with
      | none => simpa [firstErrorIn, hj] using ih hr
      | some o =>
        cases o with
        | error f => exact ⟨f, by simp [firstErrorIn, hj]⟩
        | ok a => simpa [firstErrorIn, hj] using ih hr

/-! ## Claim theorems -/

/-- Claim C1 (code bug): the fan-out was claimed to return one normalized
response per configured model, in configuration order.  The code's `_task`
never reads its `model` parameter: every task builds its request from, and
tags its response with, the orchestrator's own `provider`/`model` attributes.
First conjunct: the task outcome is independent of the model identity handed
to it, for every possible inherited context.  Remaining conjuncts: at a
concrete fan-out over two distinct configured models, both returned responses
carry the orchestrator's own identity, which differs from both configured
identities. -/
theorem multiModel_task_ignores_model :
    (∀ (mm : MultiModel) (prompt : String) (o : Except PyErr TransportResponse)
        (m1 m2 : Model), taskMM mm prompt o m1 = taskMM mm prompt o m2)
    ∧ askAsyncMM
        ({ ctx := { provider := "prov0", model := "model0" },
           models := [{ provider := "openai", name := "gpt-4" },
                      { provider := "anthropic", name := "claude-3" }] }) "p"
        (fun _ => .ok
          { content := "4",
            usage := { completion_tokens := 1, prompt_tokens := 2, total_tokens := 3 },
            response_cost := some (1/4) }) [1, 0]
      = .ok [{ prompt := "p", response := "4",
               model := { provider := "prov0", name := "model0" },
               usage := { completion_tokens := 1, prompt_tokens := 2, total_tokens := 3,
                          cost := some (pyRound8 (1/4)) } },
             { prompt := "p", response := "4",
               model := { provider := "prov0", name := "model0" },
               usage := { completion_tokens := 1, prompt_tokens := 2, total_tokens := 3,
                          cost := some (pyRound8 (1/4)) } }]
    ∧ ({ provider := "prov0", name := "model0" } : Model)
        ≠ { provider := "openai", name := "gpt-4" }
    ∧ ({ provider := "prov0", name := "model0" } : Model)
        ≠ { provider := "anthropic", name := "claude-3" } := by
  refine ⟨fun mm prompt o m1 m2 => rfl, rfl, by decide, by decide⟩

/-- Claim C2, counterexample: for a transport response whose hidden cost
field holds the raw value `0.123456785` (the binary64 float, whose exact
value is `respCostFloatVal`), the processed cost is exactly `0.12345678`,
which differs from the claimed `0.12345679`. -/
theorem cost_rounding_counterexample :
    processResponse { provider := "openai", model := "gpt-4.1-nano" } "2+2="
        { content := "4",
          usage := { completion_tokens := 1, prompt_tokens := 2, total_tokens := 3 },
          response_cost := some respCostFloatVal }
      = .ok { prompt := "2+2=", response := "4",
              model := { provider := "openai", name := "gpt-4.1-nano" },
              usage := { completion_tokens := 1, prompt_tokens := 2,
                         total_tokens := 3, cost := some (0.12345678 : ℚ) } }
    ∧ (0.12345678 : ℚ) ≠ 0.12345679 := by
  constructor
  · have hr : pyRound8 respCostFloatVal = 0.12345678 := by
      rw [pyRound8, roundHalfEven_floatCost]
      norm_num
    simp only [processResponse, pyDecimal]
    rw [hr]
  · norm_num

/-- Claim C2 (amended): for a reported raw cost of `0.123456785` the
processed cost equals exactly `0.12345678`: Python `round` on `Decimal` uses
half-even rounding, and the scaled value sits below the decimal tie anyway
because the float carrying it is `0.1234567849999…`; rounding the exact
decimal `0.123456785` would give the same digits (tie resolved to the even
digit 8). -/
theorem cost_rounding_half_even :
    processResponse { provider := "openai", model := "gpt-4.1-nano" } "2+2="
        { content := "4",
          usage := { completion_tokens := 1, prompt_tokens := 2, total_tokens := 3 },
          response_cost := some respCostFloatVal }
      = .ok { prompt := "2+2=", response := "4",
              model := { provider := "openai", name := "gpt-4.1-nano" },
              usage := { completion_tokens := 1, prompt_tokens := 2,
                         total_tokens := 3, cost := some (0.12345678 : ℚ) } }
    ∧ pyRound8 (123456785 / 10 ^ 9) = 0.12345678 := by
  constructor
  · have hr : pyRound8 respCostFloatVal = 0.12345678 := by
      rw [pyRound8, roundHalfEven_floatCost]
      norm_num
    simp only [processResponse, pyDecimal]
    rw [hr]
  · rw [pyRound8, roundHalfEven_exactCost]
    norm_num

/-- Claim C3, counterexample: at a prompt requesting no typed result, the
blocking request carries the free-text wrapper schema while the non-blocking
request carries no schema; and with an empty configured tool list, the
blocking request carries no tool descriptors while the non-blocking request
carries an empty descriptor list. -/
theorem async_request_counterexample :
    (completionArgs { provider := "openai", model := "gpt-4.1-nano" }
        (.promptObj { text := "hi", response_type := none }) none).response_format
      ≠ (completionAsyncArgs { provider := "openai", model := "gpt-4.1-nano" }
          (.str "hi") none none).response_format
    ∧ (completionArgs { provider := "openai", model := "gpt-4.1-nano", toolsAttr := some [] }
        (.promptObj { text := "hi", response_type := none }) none).tools
      ≠ (completionAsyncArgs { provider := "openai", model := "gpt-4.1-nano", toolsAttr := some [] }
          (.str "hi") none none).tools := by
  refine ⟨by decide, by decide⟩

/-- Claim C3 (amended): the non-blocking path sends the same resolved model
identifier, messages, base url and max-token cap as the blocking path; the
response schema agrees (the requested type wrapped under a single field)
exactly when the prompt requests a typed result — in the free-text case
blocking sends the text wrapper while non-blocking sends no schema — and the
tool descriptors agree when no tool attribute is configured. -/
theorem async_request_agreement (self : Executor) (p : PromptVal)
    (md : Option (List (String × String))) :
    (completionArgs self (.promptObj p) md).model
      = (completionAsyncArgs self (.str p.text) p.response_type md).model
    ∧ (completionArgs self (.promptObj p) md).messages
      = (completionAsyncArgs self (.str p.text) p.response_type md).messages
    ∧ (completionArgs self (.promptObj p) md).base_url
      = (completionAsyncArgs self (.str p.text) p.response_type md).base_url
    ∧ (completionArgs self (.promptObj p) md).max_tokens
      = (completionAsyncArgs self (.str p.text) p.response_type md).max_tokens
    ∧ (∀ t, p.response_type = some t →
        (completionArgs self (.promptObj p) md).response_format
            = some (RespFormat.wrapTyped t)
          ∧ (completionAsyncArgs self (.str p.text) p.response_type md).response_format
            = some (RespFormat.wrapTyped t))
    ∧ (p.response_type = none →
        (completionArgs self (.promptObj p) md).response_format
            = some RespFormat.wrapText
          ∧ (completionAsyncArgs self (.str p.text) p.response_type md).response_format
            = none)
    ∧ (self.toolsAttr = none →
        (completionArgs self (.promptObj p) md).tools = none
          ∧ (completionAsyncArgs self (.str p.text) p.response_type md).tools = none) := by
  rcases hru : resolveModelUrl self with ⟨m, u⟩
  refine ⟨?_, ?_, ?_, ?_, ?_, ?_, ?_⟩
  · simp [completionArgs, completionAsyncArgs, hru]
  · simp [completionArgs, completionAsyncArgs, hru, promptAsDict]
  · simp [completionArgs, completionAsyncArgs, hru]
  · simp [completionArgs, completionAsyncArgs, hru]
  · intro t ht
    constructor <;> simp [completionArgs, completionAsyncArgs, hru, ht]
  · intro ht
    constructor <;> simp [completionArgs, completionAsyncArgs, hru, ht]
  · intro hto
    constructor <;> simp [completionArgs, completionAsyncArgs, hru, getTools, getToolsAsync, hto]

/-- Claim C3, witness: the agreement theorem applied at a typed prompt with
no configured tools. -/
theorem async_request_agreement_witness :
    (completionArgs { provider := "openai", model := "gpt-4.1-nano" }
        (.promptObj { text := "2+2=", response_type := some "int" }) none).model
      = (completionAsyncArgs { provider := "openai", model := "gpt-4.1-nano" }
          (.str "2+2=") (some "int") none).model
    ∧ (completionArgs { provider := "openai", model := "gpt-4.1-nano" }
        (.promptObj { text := "2+2=", response_type := some "int" }) none).messages
      = (completionAsyncArgs { provider := "openai", model := "gpt-4.1-nano" }
          (.str "2+2=") (some "int") none).messages
    ∧ (completionArgs { provider := "openai", model := "gpt-4.1-nano" }
        (.promptObj { text := "2+2=", response_type := some "int" }) none).response_format
      = some (RespFormat.wrapTyped "int")
    ∧ (completionAsyncArgs { provider := "openai", model := "gpt-4.1-nano" }
        (.str "2+2=") (some "int") none).response_format
      = some (RespFormat.wrapTyped "int")
    ∧ (completionArgs { provider := "openai", model := "gpt-4.1-nano" }
        (.promptObj { text := "2+2=", response_type := some "int" }) none).tools = none
    ∧ (completionAsyncArgs { provider := "openai", model := "gpt-4.1-nano" }
        (.str "2+2=") (some "int") none).tools = none := by
  have h := async_request_agreement { provider := "openai", model := "gpt-4.1-nano" }
    { text := "2+2=", response_type := some "int" } none
  have hrf := h.2.2.2.2.1 "int" rfl
  have hto := h.2.2.2.2.2.2 rfl
  exact ⟨h.1, h.2.1, hrf.1, hrf.2, hto.1, hto.2⟩

/-- Claim C4 (code bug): the claim says that, when the configured
observability list is non-empty, both transport notification channels are set
to it before dispatch.  In the code the two assignments bind function-local
names, so `_setup_observability` leaves the litellm module state unchanged
for every configuration and every prior channel state. -/
theorem setup_observability_is_noop (conf : Conf) (st : LitellmCallbacks) :
    setupObservability conf st = st := by
  simp only [setupObservability]
  split <;> rfl

/-- Claim C5: on a successful streaming call the yielded sequence is exactly
one head (carrying only the model identity) first, then one chunk per
transport delta, then exactly one tail last, whose prompt echoes the input,
whose response is the accumulated delta text and whose usage copies the
terminal chunk; nothing follows the tail.  A call that fails before any
transport output yields zero elements and re-raises the transport error. -/
theorem stream_sequence_shape (self : Executor) (prompt : String)
    (tGood tBad : CompletionArgs → Except PyErr (List RawChunk × RawTail))
    (chunks : List RawChunk) (last : RawTail) (e : PyErr)
    (hok : tGood (completionStreamArgs self (.str prompt) none none) = .ok (chunks, last))
    (herr : tBad (completionStreamArgs self (.str prompt) none none) = .error e) :
    askStream self prompt tGood
      = .ok (StreamEvent.head (processStreamHead self)
          :: (chunks.map fun c => StreamEvent.chunk (processStreamChunk c))
          ++ [StreamEvent.tail (processStreamTail self last prompt
                (String.join (chunks.map RawChunk.delta)))])
    ∧ (processStreamTail self last prompt
        (String.join (chunks.map RawChunk.delta))).prompt = prompt
    ∧ (processStreamTail self last prompt
        (String.join (chunks.map RawChunk.delta))).response
        = String.join (chunks.map RawChunk.delta)
    ∧ (processStreamTail self last prompt
        (String.join (chunks.map RawChunk.delta))).usage.total_tokens
        = last.usage.total_tokens
    ∧ askStream self prompt tBad = .error e := by
  refine ⟨?_, rfl, rfl, rfl, ?_⟩
  · simp [askStream, hok]
  · simp [askStream, herr]

/-- Claim C5, witness: a two-chunk stream and an upfront transport failure. -/
theorem stream_sequence_shape_witness :
    askStream { provider := "openai", model := "gpt-4.1-nano" } "tell"
        (fun _ => .ok ([{ delta := "a" }, { delta := "b" }],
          { usage := { completion_tokens := 1, prompt_tokens := 2, total_tokens := 3 },
            response_cost := none }))
      = .ok [StreamEvent.head (processStreamHead { provider := "openai", model := "gpt-4.1-nano" }),
             StreamEvent.chunk { delta := "a" }, StreamEvent.chunk { delta := "b" },
             StreamEvent.tail (processStreamTail { provider := "openai", model := "gpt-4.1-nano" }
               { usage := { completion_tokens := 1, prompt_tokens := 2, total_tokens := 3 },
                 response_cost := none } "tell" "ab")]
    ∧ askStream { provider := "openai", model := "gpt-4.1-nano" } "tell"
        (fun _ => .error (.transportError "boom"))
      = .error (.transportError "boom") := by
  have h := stream_sequence_shape { provider := "openai", model := "gpt-4.1-nano" } "tell"
    (fun _ => .ok ([{ delta := "a" }, { delta := "b" }],
      { usage := { completion_tokens := 1, prompt_tokens := 2, total_tokens := 3 },
        response_cost := none }))
    (fun _ => .error (.transportError "boom"))
    [{ delta := "a" }, { delta := "b" }]
    { usage := { completion_tokens := 1, prompt_tokens := 2, total_tokens := 3 },
      response_cost := none }
    (.transportError "boom") rfl rfl
  exact ⟨h.1, h.2.2.2.2⟩

/-- Claim C6: with no retrieval capability the augmentation step is skipped;
retrieval returning zero document groups leaves the prompt unchanged;
retrieval returning the groups `[["a","b"],["c"]]` produces the original
prompt followed by the configured template text followed by `"a\nb\nc"`. -/
theorem rag_augmentation_spec (conf : Conf) (prompt : String)
    (f g : String → RagResult)
    (hf : f prompt = { documents := [] })
    (hg : g prompt = { documents := [["a", "b"], ["c"]] }) :
    ragAugment none conf prompt = prompt
    ∧ ragAugment (some f) conf prompt = prompt
    ∧ ragAugment (some g) conf prompt = prompt ++ conf.ragTemplate ++ "a\nb\nc" := by
  refine ⟨rfl, ?_, ?_⟩
  · simp [ragAugment, hf]
  · have hj : String.intercalate "\n" ["a", "b", "c"] = "a\nb\nc" := rfl
    simp [ragAugment, hg, hj, String.append_assoc]

/-- Claim C6, witness: the augmentation facts at a concrete prompt, template
and retrieval doubles. -/
theorem rag_augmentation_spec_witness :
    ragAugment none { observability := [], ragTemplate := "\nContext:\n" } "hi" = "hi"
    ∧ ragAugment (some fun _ => { documents := [] })
        { observability := [], ragTemplate := "\nContext:\n" } "hi" = "hi"
    ∧ ragAugment (some fun _ => { documents := [["a", "b"], ["c"]] })
        { observability := [], ragTemplate := "\nContext:\n" } "hi"
      = "hi" ++ "\nContext:\n" ++ "a\nb\nc" :=
  rag_augmentation_spec { observability := [], ragTemplate := "\nContext:\n" } "hi"
    (fun _ => { documents := [] }) (fun _ => { documents := [["a", "b"], ["c"]] }) rfl rfl

/-- Claim C7: every normalized response copies the transport's three token
counts verbatim — including a total inconsistent with the sum — both on the
non-streaming path and on the streaming tail; the total is never recomputed. -/
theorem usage_passthrough (self : Executor) (prompt : String)
    (r : TransportResponse) (c : ℚ) (hc : r.response_cost = some c)
    (tl : RawTail) (p resp : String) :
    processResponse self prompt r
      = .ok { prompt := prompt, response := r.content,
              model := { provider := self.provider, name := self.model },
              usage := { completion_tokens := r.usage.completion_tokens,
                         prompt_tokens := r.usage.prompt_tokens,
                         total_tokens := r.usage.total_tokens,
                         cost := some (pyRound8 c) } }
    ∧ (processStreamTail self tl p resp).usage.completion_tokens = tl.usage.completion_tokens
    ∧ (processStreamTail self tl p resp).usage.prompt_tokens = tl.usage.prompt_tokens
    ∧ (processStreamTail self tl p resp).usage.total_tokens = tl.usage.total_tokens := by
  refine ⟨?_, rfl, rfl, rfl⟩
  simp [processResponse, pyDecimal, hc]

/-- Claim C7, witness: a transport double reporting the inconsistent total
999 for completion 3 and prompt 5; the inconsistency is passed through. -/
theorem usage_passthrough_witness :
    ({ content := "4",
       usage := { completion_tokens := 3, prompt_tokens := 5, total_tokens := 999 },
       response_cost := some 1 } : TransportResponse).response_cost = some 1
    ∧ (999 : Int) ≠ 3 + 5
    ∧ processResponse { provider := "openai", model := "gpt-4.1-nano" } "2+2="
        { content := "4",
          usage := { completion_tokens := 3, prompt_tokens := 5, total_tokens := 999 },
          response_cost := some 1 }
      = .ok { prompt := "2+2=", response := "4",
              model := { provider := "openai", name := "gpt-4.1-nano" },
              usage := { completion_tokens := 3, prompt_tokens := 5,
                         total_tokens := 999, cost := some (pyRound8 1) } }
    ∧ (processStreamTail { provider := "openai", model := "gpt-4.1-nano" }
        { usage := { completion_tokens := 3, prompt_tokens := 5, total_tokens := 999 },
          response_cost := none } "2+2=" "4").usage.total_tokens = 999 := by
  have h := usage_passthrough { provider := "openai", model := "gpt-4.1-nano" } "2+2="
    { content := "4",
      usage := { completion_tokens := 3, prompt_tokens := 5, total_tokens := 999 },
      response_cost := some 1 } 1 rfl
    { usage := { completion_tokens := 3, prompt_tokens := 5, total_tokens := 999 },
      response_cost := none } "2+2=" "4"
  exact ⟨rfl, by decide, h.1, h.2.2.2⟩

/-- Claim C8, counterexample: the non-blocking path's inline tool resolution
does not skip an unrecognized tool value — it hands it to the plain-callable
parser and emits a descriptor for it — and an empty configured tool list
yields an empty descriptor list there, while `_get_tools` skips the
unrecognized value. -/
theorem async_tool_resolution_counterexample :
    getToolsAsync (some [ToolValue.other "obj"])
      = some [ToolDescriptor.funcDesc (ToolValue.other "obj")]
    ∧ getToolsAsync (some [ToolValue.other "obj"]) ≠ some []
    ∧ getToolsAsync (some []) = some []
    ∧ getTools (some [ToolValue.other "obj"]) = some [] := by
  refine ⟨rfl, by decide, rfl, rfl⟩

/-- Claim C8 (amended): `_get_tools` — used by the blocking and streaming
paths — produces one normalized descriptor per recognized tool over exactly
the two variants, preserves input order, silently skips unrecognized
variants, and yields no descriptors when no tools are configured; the
non-blocking path instead parses every configured tool as a plain callable,
skipping nothing. -/
theorem tool_resolution_amended (ts : List ToolValue) (hts : 0 < ts.length) :
    getTools none = none
    ∧ getTools (some []) = none
    ∧ getTools (some ts) = some (ts.filterMap parseStep)
    ∧ getToolsAsync (some ts) = some (ts.map toolParserParse)
    ∧ getToolsAsync none = none := by
  refine ⟨rfl, rfl, ?_, ?_, rfl⟩
  · simp [getTools, hts, toolLoop_eq]
  · simp [getToolsAsync, toolLoopAsync_eq]

/-- Claim C8, witness: the amended resolution facts at a three-tool list
holding one of each variant. -/
theorem tool_resolution_amended_witness :
    0 < ([ToolValue.func "f", ToolValue.other "x", ToolValue.mcp "m"] : List ToolValue).length
    ∧ (getTools none = none
      ∧ getTools (some []) = none
      ∧ getTools (some [ToolValue.func "f", ToolValue.other "x", ToolValue.mcp "m"])
          = some ([ToolValue.func "f", ToolValue.other "x", ToolValue.mcp "m"].filterMap parseStep)
      ∧ getToolsAsync (some [ToolValue.func "f", ToolValue.other "x", ToolValue.mcp "m"])
          = some ([ToolValue.func "f", ToolValue.other "x", ToolValue.mcp "m"].map toolParserParse)
      ∧ getToolsAsync none = none) :=
  ⟨by decide, tool_resolution_amended _ (by decide)⟩

/-- Claim C9: if any one of at least two configured tasks raises, the whole
fan-out call raises (the first exception in completion order) and returns no
partial result list, whatever the completion order of the sibling tasks. -/
theorem fanout_failfast (mm : MultiModel) (prompt : String)
    (acomp : Nat → Except PyErr TransportResponse) (σ : List Nat)
    (i : Nat) (e : PyErr)
    (hN : 2 ≤ mm.models.length)
    (hperm : List.Perm σ (List.range mm.models.length))
    (hi : (fanTasks mm prompt acomp)[i]? = some (.error e)) :
    (∃ e2, askAsyncMM mm prompt acomp σ = .error e2)
    ∧ ∀ rs, askAsyncMM mm prompt acomp σ ≠ .ok rs := by
  have hlt : i < (fanTasks mm prompt acomp).length := by
    by_contra hge
    rw [List.getElem?_eq_none (Nat.le_of_not_lt hge)] at hi
    cases hi
  have himem : i ∈ σ := hperm.mem_iff.mpr (by
    rw [List.mem_range]
    simpa [fanTasks_length] using hlt)
  obtain ⟨e2, he2⟩ := firstErrorIn_isSome_of_mem _ σ i e himem hi
  refine ⟨⟨e2, by simp [askAsyncMM, gather, he2]⟩, ?_⟩
  intro rs h
  rw [askAsyncMM, gather, he2] at h
  cases h

/-- Claim C9, witness: two configured models, the first task's transport call
raising, the second succeeding, completion order reversed; the fan-out
returns no list. -/
theorem fanout_failfast_witness :
    2 ≤ ({ ctx := { provider := "prov0", model := "model0" },
           models := [{ provider := "openai", name := "gpt-4" },
                      { provider := "anthropic", name := "claude-3" }] } : MultiModel).models.length
    ∧ List.Perm [1, 0] (List.range 2)
    ∧ (fanTasks
        ({ ctx := { provider := "prov0", model := "model0" },
           models := [{ provider := "openai", name := "gpt-4" },
                      { provider := "anthropic", name := "claude-3" }] }) "p"
        (fun i => if i = 0 then .error (.transportError "rate limit")
          else .ok
            { content := "4",
              usage := { completion_tokens := 1, prompt_tokens := 2, total_tokens := 3 },
              response_cost := some 1 }))[0]?
      = some (.error (.transportError "rate limit"))
    ∧ askAsyncMM
        ({ ctx := { provider := "prov0", model := "model0" },
           models := [{ provider := "openai", name := "gpt-4" },
                      { provider := "anthropic", name := "claude-3" }] }) "p"
        (fun i => if i = 0 then .error (.transportError "rate limit")
          else .ok
            { content := "4",
              usage := { completion_tokens := 1, prompt_tokens := 2, total_tokens := 3 },
              response_cost := some 1 }) [1, 0]
      ≠ .ok [] := by
  refine ⟨by decide, by decide, rfl, ?_⟩
  exact (fanout_failfast
    ({ ctx := { provider := "prov0", model := "model0" },
       models := [{ provider := "openai", name := "gpt-4" },
                  { provider := "anthropic", name := "claude-3" }] }) "p"
    (fun i => if i = 0 then .error (.transportError "rate limit")
      else .ok
        { content := "4",
          usage := { completion_tokens := 1, prompt_tokens := 2, total_tokens := 3 },
          response_cost := some 1 }) [1, 0] 0 (.transportError "rate limit")
    (by decide) (by decide) rfl).2 []

/-- Claim C10: a non-streaming transport response whose hidden cost field is
null makes `_process_response` raise (a `TypeError` from the unguarded
`Decimal` conversion) instead of returning a response with a null cost,
whereas `_process_stream_tail` maps a null terminal cost to a null usage
cost; a non-streaming response is normalized successfully exactly when the
reported cost is non-null. -/
theorem null_cost_raises (self : Executor) (prompt : String)
    (r r2 : TransportResponse) (tl : RawTail) (p resp : String)
    (hr : r.response_cost = none) (ht : tl.response_cost = none) :
    processResponse self prompt r
      = .error (.typeError "conversion from NoneType to Decimal is not supported")
    ∧ (processStreamTail self tl p resp).usage.cost = none
    ∧ (exceptIsOk (processResponse self prompt r2) = true ↔ r2.response_cost ≠ none) := by
  refine ⟨by simp [processResponse, pyDecimal, hr], by simp [processStreamTail, ht], ?_⟩
  cases h2 : r2.response_cost <;> simp [processResponse, pyDecimal, h2, exceptIsOk]

/-- Claim C10, witness: the null-cost behaviour at concrete responses. -/
theorem null_cost_raises_witness :
    processResponse { provider := "openai", model := "gpt-4.1-nano" } "2+2="
        { content := "4",
          usage := { completion_tokens := 1, prompt_tokens := 2, total_tokens := 3 },
          response_cost := none }
      = .error (.typeError "conversion from NoneType to Decimal is not supported")
    ∧ (processStreamTail { provider := "openai", model := "gpt-4.1-nano" }
        { usage := { completion_tokens := 1, prompt_tokens := 2, total_tokens := 3 },
          response_cost := none } "2+2=" "4").usage.cost = none
    ∧ (exceptIsOk (processResponse { provider := "openai", model := "gpt-4.1-nano" } "2+2="
          { content := "4",
            usage := { completion_tokens := 1, prompt_tokens := 2, total_tokens := 3 },
            response_cost := some 2 }) = true
        ↔ ({ content := "4",
             usage := { completion_tokens := 1, prompt_tokens := 2, total_tokens := 3 },
             response_cost := some 2 } : TransportResponse).response_cost ≠ none) := by
  have h := null_cost_raises { provider := "openai", model := "gpt-4.1-nano" } "2+2="
    { content := "4",
      usage := { completion_tokens := 1, prompt_tokens := 2, total_tokens := 3 },
      response_cost := none }
    { content := "4",
      usage := { completion_tokens := 1, prompt_tokens := 2, total_tokens := 3 },
      response_cost := some 2 }
    { usage := { completion_tokens := 1, prompt_tokens := 2, total_tokens := 3 },
      response_cost := none } "2+2=" "4" rfl rfl
  exact ⟨h.1, h.2.1, h.2.2⟩

end Aidk
